import Mathlib

/-!
Shallow embedding of the rados.go repository (Go bindings for librados).

The Go code calls the librados C library through cgo; every C primitive
(`rados_stat`, `rados_read`, `rados_write`, ...) is an external collaborator.
We model the collaborator as a record of state-transforming primitive
functions over an abstract state type `S`; each primitive returns the
updated state together with the C return code (an `Int`: negative values
are failure sentinels) and, where applicable, output data.  The Go
functions of the repository are then translated as state-passing Lean
functions over these primitives, so that every control-flow decision of
the Go source (comparisons of the C return code, early returns, loop
structure) appears literally in the Lean definitions.

Go `error` values produced by the repository are modelled by the
inductive `GoErr`: one constructor per distinct `fmt.Errorf` format
string in the source, each carrying the object/pool name it formats and
the C return code passed to `strerror`, plus `io.EOF`.
-/

namespace RadosGo

/-- Go `error` values produced by this repository: `io.EOF` plus one
constructor per distinct `fmt.Errorf` call site, carrying the formatted
name and the C return code passed to `strerror`. -/
inductive GoErr where
  /-- `io.EOF`, returned by `Object.ReadAt` on a zero-byte transfer. -/
  | eof : GoErr
  /-- `fmt.Errorf("RADOS stat %s: %s", name, strerror(cerr))` -/
  | radosStat (name : String) (cerr : Int) : GoErr
  /-- `fmt.Errorf("RADOS get %s: %s", name, strerror(cerr))` -/
  | radosGet (name : String) (cerr : Int) : GoErr
  /-- `fmt.Errorf("RADOS put %s: %s", name, strerror(cerr))` (used by `Put` and `Append`) -/
  | radosPut (name : String) (cerr : Int) : GoErr
  /-- `fmt.Errorf("RADOS remove: %s: %s", name, strerror(cerr))` -/
  | radosRemove (name : String) (cerr : Int) : GoErr
  /-- `fmt.Errorf("RADOS trunc: %s: %s", name, strerror(cerr))` -/
  | radosTrunc (name : String) (cerr : Int) : GoErr
  /-- `fmt.Errorf("RADOS read %s: %s", o.name, strerror(cerr))` -/
  | radosRead (name : String) (cerr : Int) : GoErr
  /-- `fmt.Errorf("RADOS write %s: %s", o.name, strerror(cerr))` -/
  | radosWrite (name : String) (cerr : Int) : GoErr
  /-- `fmt.Errorf("RADOS create: %s", strerror(cerr))` -/
  | radosCreate (cerr : Int) : GoErr
  /-- `fmt.Errorf("RADOS config: %s", strerror(cerr))` -/
  | radosConfig (cerr : Int) : GoErr
  /-- `fmt.Errorf("RADOS connect: %s", strerror(cerr))` -/
  | radosConnect (cerr : Int) : GoErr
  /-- `fmt.Errorf("RADOS cluster stat: %s", strerror(cerr))` -/
  | radosClusterStat (cerr : Int) : GoErr
  /-- `fmt.Errorf("RADOS not connected")` -/
  | radosNotConnected : GoErr
  /-- `fmt.Errorf("RADOS new ioctx for pool %s: %s", strerror(cerr))` -/
  | radosNewIoctx (pool : String) (cerr : Int) : GoErr
  deriving DecidableEq, Repr

/-- The collaborator: the librados object-level C primitives, as
state-transforming functions over an abstract state `S`.  Each returns
the successor state and the C return code; `rados_stat` additionally
returns the values written through its `uint64_t*`/`time_t*` out
parameters, and `rados_read` the bytes it wrote into the caller's
buffer. -/
structure Prims (S : Type) where
  /-- `rados_stat(ctx, name, &csize, &ctime)` → (state, cerr, csize, ctime). -/
  statPrim : S → String → S × Int × Nat × Int
  /-- `rados_read(ctx, name, buf, len, off)` → (state, cerr, bytes placed in `buf`). -/
  readPrim : S → String → Nat → Int → S × Int × List Nat
  /-- `rados_write(ctx, name, data, len, off)` → (state, cerr). -/
  writePrim : S → String → List Nat → Int → S × Int
  /-- `rados_write_full(ctx, name, data, len)` → (state, cerr). -/
  writeFullPrim : S → String → List Nat → S × Int
  /-- `rados_append(ctx, name, data, len)` → (state, cerr). -/
  appendPrim : S → String → List Nat → S × Int
  /-- `rados_remove(ctx, name)` → (state, cerr). -/
  removePrim : S → String → S × Int
  /-- `rados_trunc(ctx, name, size)` → (state, cerr). -/
  truncPrim : S → String → Nat → S × Int

/-- Go's `int64(csize)` conversion of a C `uint64_t` value. -/
def toInt64 (u : Nat) : Int :=
  if u % 2 ^ 64 < 2 ^ 63 then ((u % 2 ^ 64 : Nat) : Int)
  else ((u % 2 ^ 64 : Nat) : Int) - 2 ^ 64

/-- `Context` (io-context handle for a pool): `Pool` is the pool name; the
C `rados_ioctx_t` field is abstracted into the primitive state `S`. -/
structure Context where
  Pool : String
  deriving DecidableEq, Repr

/-- `Object`: cached view of one named object.  `name`, `size`, `modTime`
are the Go struct fields; the embedded `sys` back-reference is modelled by
`c` (the `Context`) and `pool`. -/
structure Object where
  name : String
  size : Int
  modTime : Int
  c : Context
  pool : String
  deriving DecidableEq, Repr

/-- Primitive-call events, used to record which remote calls an operation
issues and in which order. -/
inductive Ev where
  | statEv (name : String) : Ev
  | readEv (name : String) (len : Nat) (off : Int) : Ev
  | writeFullEv (name : String) (data : List Nat) : Ev
  | appendEv (name : String) (data : List Nat) : Ev
  | removeEv (name : String) : Ev
  | truncEv (name : String) (size : Nat) : Ev
  deriving DecidableEq, Repr

/-- `Context.Stat` (object.go): issues `rados_stat`; on a negative return
code fails with the "RADOS stat" error, otherwise builds a fresh `Object`
from the returned size and mtime (`time.Unix(ctime, 0)` is modelled as the
seconds value `ctime` itself). -/
def Context.Stat {S : Type} (P : Prims S) (c : Context) (s : S) (name : String) :
    S × Except GoErr Object × List Ev :=
  let r := P.statPrim s name
  if r.2.1 < 0 then (r.1, .error (.radosStat name r.2.1), [.statEv name])
  else (r.1, .ok { name := name, size := toInt64 r.2.2.1, modTime := r.2.2.2,
                   c := c, pool := c.Pool }, [.statEv name])

/-- `Context.Get` (object.go): stat first; propagate a stat failure with no
read; if the statted size is zero return an empty slice with no read;
otherwise allocate a buffer of the statted size and issue a single
`rados_read` at offset 0, failing with the "RADOS get" error on a negative
return code.  The returned slice is the allocated buffer: the bytes the
primitive wrote followed by the zero bytes `make` initialised. -/
def Context.Get {S : Type} (P : Prims S) (c : Context) (s : S) (name : String) :
    S × Except GoErr (List Nat) × List Ev :=
  let st := Context.Stat P c s name
  match st.2.1 with
  | .error e => (st.1, .error e, st.2.2)
  | .ok obj =>
    if obj.size = 0 then (st.1, .ok [], st.2.2)
    else
      let len := obj.size.toNat
      let r := P.readPrim st.1 name len 0
      let buf := (r.2.2.take len) ++ List.replicate (len - (r.2.2.take len).length) 0
      if r.2.1 < 0 then (r.1, .error (.radosGet name r.2.1), st.2.2 ++ [.readEv name len 0])
      else (r.1, .ok buf, st.2.2 ++ [.readEv name len 0])

/-- `Context.Put` (object.go): one `rados_write_full`; fails with the
"RADOS put" error on a negative return code. -/
def Context.Put {S : Type} (P : Prims S) (c : Context) (s : S) (name : String)
    (data : List Nat) : S × Option GoErr × List Ev :=
  let r := P.writeFullPrim s name data
  if r.2 < 0 then (r.1, some (.radosPut name r.2), [.writeFullEv name data])
  else (r.1, none, [.writeFullEv name data])

/-- `Context.Append` (object.go): one `rados_append`; fails with the
"RADOS put" error (the source reuses that format string) on a negative
return code. -/
def Context.Append {S : Type} (P : Prims S) (c : Context) (s : S) (name : String)
    (data : List Nat) : S × Option GoErr × List Ev :=
  let r := P.appendPrim s name data
  if r.2 < 0 then (r.1, some (.radosPut name r.2), [.appendEv name data])
  else (r.1, none, [.appendEv name data])

/-- `Context.Remove` (object.go): one `rados_remove`; fails with the
"RADOS remove" error on any nonzero return code (`cerr != 0`, not
`cerr < 0`). -/
def Context.Remove {S : Type} (P : Prims S) (c : Context) (s : S) (name : String) :
    S × Option GoErr × List Ev :=
  let r := P.removePrim s name
  if r.2 ≠ 0 then (r.1, some (.radosRemove name r.2), [.removeEv name])
  else (r.1, none, [.removeEv name])

/-- `Context.Truncate` (object.go): one `rados_trunc`; fails with the
"RADOS trunc" error on any nonzero return code. -/
def Context.Truncate {S : Type} (P : Prims S) (c : Context) (s : S) (name : String)
    (size : Nat) : S × Option GoErr × List Ev :=
  let r := P.truncPrim s name size
  if r.2 ≠ 0 then (r.1, some (.radosTrunc name r.2), [.truncEv name size])
  else (r.1, none, [.truncEv name size])

/-- `Context.Create` (object.go): `Put` with an empty payload, then `Stat`
to fill in the object structure; either failure is propagated. -/
def Context.Create {S : Type} (P : Prims S) (c : Context) (s : S) (name : String) :
    S × Except GoErr Object × List Ev :=
  let p := Context.Put P c s name []
  match p.2.1 with
  | some e => (p.1, .error e, p.2.2)
  | none =>
    let st := Context.Stat P c p.1 name
    (st.1, st.2.1, p.2.2 ++ st.2.2)

/-- `Context.Open` (object.go): `Stat` first; on success return that
handle; on stat failure fall through to `Create`. -/
def Context.Open {S : Type} (P : Prims S) (c : Context) (s : S) (name : String) :
    S × Except GoErr Object × List Ev :=
  let st := Context.Stat P c s name
  match st.2.1 with
  | .ok obj => (st.1, .ok obj, st.2.2)
  | .error _ =>
    let cr := Context.Create P c st.1 name
    (cr.1, cr.2.1, st.2.2 ++ cr.2.2)

/-- `Object.Stat` (object.go): wraps the context-level `Stat` on `o.name`;
on failure returns the error with the handle untouched, on success copies
`size` and `modTime` from the freshly statted object into the handle. -/
def Object.Stat {S : Type} (P : Prims S) (s : S) (o : Object) :
    S × Object × Option GoErr × List Ev :=
  let st := Context.Stat P o.c s o.name
  match st.2.1 with
  | .error e => (st.1, o, some e, st.2.2)
  | .ok obj => (st.1, { o with size := obj.size, modTime := obj.modTime }, none, st.2.2)

/-- `Object.Remove` (object.go): delegates to the context-level `Remove`;
the handle is returned unchanged because the Go method never assigns to
`o`'s fields. -/
def Object.Remove {S : Type} (P : Prims S) (s : S) (o : Object) :
    S × Object × Option GoErr × List Ev :=
  let r := Context.Remove P o.c s o.name
  (r.1, o, r.2.1, r.2.2)

/-- `Object.Truncate` (object.go): delegates to the context-level
`Truncate`; the handle is returned unchanged. -/
def Object.Truncate {S : Type} (P : Prims S) (s : S) (o : Object) (size : Nat) :
    S × Object × Option GoErr × List Ev :=
  let r := Context.Truncate P o.c s o.name size
  (r.1, o, r.2.1, r.2.2)

/-- `Object.Append` (object.go): delegates to the context-level `Append`;
the handle is returned unchanged. -/
def Object.Append {S : Type} (P : Prims S) (s : S) (o : Object) (data : List Nat) :
    S × Object × Option GoErr × List Ev :=
  let r := Context.Append P o.c s o.name data
  (r.1, o, r.2.1, r.2.2)

/-- `Object.Get` (object.go): delegates to the context-level `Get`; the
handle is returned unchanged because the Go method never assigns to `o`'s
fields (the `Stat` inside `Context.Get` builds a fresh `Object`, it does
not write into this handle). -/
def Object.Get {S : Type} (P : Prims S) (s : S) (o : Object) :
    S × Object × Except GoErr (List Nat) × List Ev :=
  let r := Context.Get P o.c s o.name
  (r.1, o, r.2.1, r.2.2)

/-- `Object.Put` (object.go): delegates to the context-level `Put`; the
handle is returned unchanged. -/
def Object.Put {S : Type} (P : Prims S) (s : S) (o : Object) (data : List Nat) :
    S × Object × Option GoErr × List Ev :=
  let r := Context.Put P o.c s o.name data
  (r.1, o, r.2.1, r.2.2)

/-- The loop of `Object.ReadAt` (object.go).  The caller's buffer enters
as its remaining length `len`; each iteration issues `rados_read` for the
remaining window at the current offset.  A zero return code yields
`io.EOF` immediately, a negative one yields the "RADOS read" error
immediately, and a positive count `cerr` advances the window
(`data = data[cerr:]`, `off += int64(cerr)`, `n += int(cerr)`) — here the
accumulator `n` is produced by adding `cerr.toNat` to the recursive
result. -/
def readAtLoop {S : Type} (P : Prims S) (name : String) (s : S) (len : Nat) (off : Int) :
    S × Nat × Option GoErr :=
  if h : len = 0 then (s, 0, none)
  else
    let r := P.readPrim s name len off
    if hz : r.2.1 = 0 then (r.1, 0, some .eof)
    else if hn : r.2.1 < 0 then (r.1, 0, some (.radosRead name r.2.1))
    else
      let k := r.2.1.toNat
      let rest := readAtLoop P name r.1 (len - k) (off + r.2.1)
      (rest.1, k + rest.2.1, rest.2.2)
termination_by len
decreasing_by
  have hz2 : ¬ (P.readPrim s name len off).2.1 = 0 := hz
  have hn2 : ¬ (P.readPrim s name len off).2.1 < 0 := hn
  show len - (P.readPrim s name len off).2.1.toNat < len
  omega

/-- `Object.ReadAt` (object.go): runs the read loop over the buffer's
length at the given offset on the handle's name. -/
def Object.ReadAt {S : Type} (P : Prims S) (s : S) (o : Object) (len : Nat) (off : Int) :
    S × Nat × Option GoErr :=
  readAtLoop P o.name s len off

/-- The loop of `Object.WriteAt` (object.go), with explicit fuel: the Go
loop has no terminal case for a zero return code (`n += 0`,
`data = data[0:]` leaves the window unchanged), so it is not structurally
terminating; `none` marks fuel exhaustion.  A negative return code yields
the "RADOS write" error immediately; otherwise the window advances by the
reported count and the loop repeats until the buffer is exhausted. -/
def writeAtLoop {S : Type} (P : Prims S) (name : String) :
    Nat → S → List Nat → Int → Option (S × Nat × Option GoErr)
  | 0, _, _, _ => none
  | fuel + 1, s, data, off =>
    if data.length = 0 then some (s, 0, none)
    else
      let r := P.writePrim s name data off
      if r.2 < 0 then some (r.1, 0, some (.radosWrite name r.2))
      else
        let k := r.2.toNat
        match writeAtLoop P name fuel r.1 (data.drop k) (off + r.2) with
        | none => none
        | some rest => some (rest.1, k + rest.2.1, rest.2.2)

/-- `Object.WriteAt` (object.go): runs the write loop over the buffer at
the given offset on the handle's name. -/
def Object.WriteAt {S : Type} (P : Prims S) (fuel : Nat) (s : S) (o : Object)
    (data : List Nat) (off : Int) : Option (S × Nat × Option GoErr) :=
  writeAtLoop P o.name fuel s data off

/-- `Rados`: cluster handle.  `rados` models the C `rados_t` field, which
is a nil-able opaque pointer (`none` = nil, as in a zero-valued
`&Rados{}`); the remaining fields cache the last cluster statistics. -/
structure Rados where
  rados : Option Nat
  size : Nat
  used : Nat
  avail : Nat
  numObjects : Nat
  deriving DecidableEq, Repr

/-- The values `rados_cluster_stat` writes into its
`struct rados_cluster_stat_t` out parameter. -/
structure ClusterStatData where
  kb : Nat
  kbUsed : Nat
  kbAvail : Nat
  numObjects : Nat
  deriving DecidableEq, Repr

/-- Cluster-level primitive-call events. -/
inductive CEv where
  | createEv : CEv
  | confReadFileEv (configFile : Option String) : CEv
  | connectEv : CEv
  | clusterStatEv : CEv
  | shutdownEv : CEv
  | ioctxCreateEv (pool : String) : CEv
  deriving DecidableEq, Repr

/-- The cluster-level librados C primitives, as state-transforming
functions over an abstract state `S`.  `createPrim` returns the handle
value `rados_create` writes through its `rados_t*` out parameter. -/
structure ClusterPrims (S : Type) where
  /-- `rados_create(&r.rados, nil)` → (state, cerr, value stored in `r.rados`). -/
  createPrim : S → S × Int × Option Nat
  /-- `rados_conf_read_file(r.rados, path-or-nil)` → (state, cerr). -/
  confReadFilePrim : S → Option Nat → Option String → S × Int
  /-- `rados_connect(r.rados)` → (state, cerr). -/
  connectPrim : S → Option Nat → S × Int
  /-- `rados_cluster_stat(r.rados, &cstat)` → (state, cerr, cstat). -/
  clusterStatPrim : S → Option Nat → S × Int × ClusterStatData
  /-- `rados_shutdown(r.rados)`: no error channel. -/
  shutdownPrim : S → Option Nat → S
  /-- `rados_ioctx_create(r.rados, pool, &c.ctx)` → (state, cerr). -/
  ioctxCreatePrim : S → Option Nat → String → S × Int

/-- `Rados.Stat` (rados.go): issues `rados_cluster_stat`; on a negative
return code fails with the "RADOS cluster stat" error leaving the handle
untouched, otherwise stores the four statistics into the handle. -/
def Rados.Stat {S : Type} (CP : ClusterPrims S) (s : S) (r : Rados) :
    S × Rados × Option GoErr × List CEv :=
  let q := CP.clusterStatPrim s r.rados
  if q.2.1 < 0 then (q.1, r, some (.radosClusterStat q.2.1), [.clusterStatEv])
  else (q.1, { r with size := q.2.2.kb, used := q.2.2.kbUsed,
                      avail := q.2.2.kbAvail, numObjects := q.2.2.numObjects },
        none, [.clusterStatEv])

/-- `Rados.Release` (rados.go): calls `rados_shutdown` and returns nil;
the Go method never assigns to `r`'s fields (in particular it does not
clear `r.rados`), so the handle is returned unchanged. -/
def Rados.Release {S : Type} (CP : ClusterPrims S) (s : S) (r : Rados) :
    S × Rados × Option GoErr × List CEv :=
  (CP.shutdownPrim s r.rados, r, none, [.shutdownEv])

/-- `New` (rados.go): `rados_create`, then `rados_conf_read_file` (with a
nil path when `configFile` is empty), then `rados_connect`, each failure
returning `(nil, error)`; on success `r.Stat()` fills in the cluster
statistics, and if that fails `r.Release()` is called before returning
`(nil, error)`. -/
def New {S : Type} (CP : ClusterPrims S) (s : S) (configFile : String) :
    S × Option Rados × Option GoErr × List CEv :=
  let r0 : Rados := { rados := none, size := 0, used := 0, avail := 0, numObjects := 0 }
  let c1 := CP.createPrim s
  let r1 := { r0 with rados := c1.2.2 }
  if c1.2.1 < 0 then (c1.1, none, some (.radosCreate c1.2.1), [.createEv])
  else
    let carg : Option String := if configFile = "" then none else some configFile
    let c2 := CP.confReadFilePrim c1.1 r1.rados carg
    if c2.2 < 0 then
      (c2.1, none, some (.radosConfig c2.2), [.createEv, .confReadFileEv carg])
    else
      let c3 := CP.connectPrim c2.1 r1.rados
      if c3.2 < 0 then
        (c3.1, none, some (.radosConnect c3.2),
         [.createEv, .confReadFileEv carg, .connectEv])
      else
        let st := Rados.Stat CP c3.1 r1
        match st.2.2.1 with
        | some e =>
          let rel := Rados.Release CP st.1 st.2.1
          (rel.1, none, some e,
           [.createEv, .confReadFileEv carg, .connectEv] ++ st.2.2.2 ++ rel.2.2.2)
        | none =>
          (st.1, some st.2.1, none,
           [.createEv, .confReadFileEv carg, .connectEv] ++ st.2.2.2)

/-- `NewDefault` (rados.go): `New` with an empty config-file path. -/
def NewDefault {S : Type} (CP : ClusterPrims S) (s : S) :
    S × Option Rados × Option GoErr × List CEv :=
  New CP s ""

/-- `Rados.NewContext` (ioctx.go): guarded by `r.rados == nil`, which
fails with "RADOS not connected"; otherwise issues `rados_ioctx_create`
and fails with the "RADOS new ioctx" error on a negative return code, or
returns the new pool context. -/
def Rados.NewContext {S : Type} (CP : ClusterPrims S) (s : S) (r : Rados) (pool : String) :
    S × Except GoErr Context × List CEv :=
  if r.rados = none then (s, .error .radosNotConnected, [])
  else
    let q := CP.ioctxCreatePrim s r.rados pool
    if q.2 < 0 then (q.1, .error (.radosNewIoctx pool q.2), [.ioctxCreateEv pool])
    else (q.1, .ok { Pool := pool }, [.ioctxCreateEv pool])

/-- Remote pool state for the ideal collaborator model: each object name
maps to its byte contents and modification time, or `none` when absent. -/
def Remote : Type := String → Option (List Nat × Int)

/-- Modelled from the spec: the fault-free behaviour of the collaborator
primitives of §6 on a single pool (the C library itself is outside the
repository).  `objectStat` reports size and mtime of an existing object
and fails (−2, i.e. −ENOENT) on an absent one; `objectRead` transfers the
available bytes from the offset (0 at or past end-of-data); `objectWrite`
and `objectWriteFull`/`objectAppend`/`objectTruncate` update contents
(write extends with a zero-filled gap when the offset is past the end);
`objectRemove` deletes the object and fails with −2 when absent. -/
def idealPrims : Prims Remote where
  statPrim := fun s name =>
    match s name with
    | none => (s, -2, 0, 0)
    | some (d, t) => (s, 0, d.length, t)
  readPrim := fun s name len off =>
    match s name with
    | none => (s, -2, [])
    | some (d, _) =>
      let chunk := (d.drop off.toNat).take len
      (s, (chunk.length : Int), chunk)
  writePrim := fun s name data off =>
    match s name with
    | none =>
      (fun n => if n = name then some (List.replicate off.toNat 0 ++ data, 0) else s n,
       (data.length : Int))
    | some (d, _) =>
      let padded := d ++ List.replicate (off.toNat - d.length) 0
      let newData := padded.take off.toNat ++ data ++ padded.drop (off.toNat + data.length)
      (fun n => if n = name then some (newData, 0) else s n, (data.length : Int))
  writeFullPrim := fun s name data =>
    (fun n => if n = name then some (data, 0) else s n, 0)
  appendPrim := fun s name data =>
    match s name with
    | none => (fun n => if n = name then some (data, 0) else s n, 0)
    | some (d, _) => (fun n => if n = name then some (d ++ data, 0) else s n, 0)
  removePrim := fun s name =>
    match s name with
    | none => (s, -2)
    | some _ => (fun n => if n = name then none else s n, 0)
  truncPrim := fun s name size =>
    match s name with
    | none => (fun n => if n = name then some (List.replicate size 0, 0) else s n, 0)
    | some (d, _) =>
      (fun n => if n = name then
         some (d.take size ++ List.replicate (size - d.length) 0, 0) else s n, 0)

/-- Concrete object-level primitives over trivial state, where every call
succeeds: `rados_stat` reports size 42 and mtime 7, `rados_read` fills the
whole requested window with byte 1, writes report full transfer. -/
def okPrims : Prims Unit where
  statPrim := fun _ _ => ((), 0, 42, 7)
  readPrim := fun _ _ len _ => ((), (len : Int), List.replicate len 1)
  writePrim := fun _ _ d _ => ((), (d.length : Int))
  writeFullPrim := fun _ _ _ => ((), 0)
  appendPrim := fun _ _ _ => ((), 0)
  removePrim := fun _ _ => ((), 0)
  truncPrim := fun _ _ _ => ((), 0)

/-- Concrete object-level primitives over trivial state where every call
fails with −5 (−EIO); `rados_stat` reports nothing. -/
def failPrims : Prims Unit where
  statPrim := fun _ _ => ((), -5, 0, 0)
  readPrim := fun _ _ _ _ => ((), -5, [])
  writePrim := fun _ _ _ _ => ((), -5)
  writeFullPrim := fun _ _ _ => ((), -5)
  appendPrim := fun _ _ _ => ((), -5)
  removePrim := fun _ _ => ((), -5)
  truncPrim := fun _ _ _ => ((), -5)

/-- Concrete object-level primitives over trivial state where reads and
writes transfer exactly one byte per call (a maximally partial but
well-formed collaborator). -/
def stepPrims : Prims Unit where
  statPrim := fun _ _ => ((), 0, 3, 5)
  readPrim := fun _ _ len _ => ((), if len = 0 then 0 else 1, List.replicate (min 1 len) 7)
  writePrim := fun _ _ d _ => ((), if d.length = 0 then 0 else 1)
  writeFullPrim := fun _ _ _ => ((), 0)
  appendPrim := fun _ _ _ => ((), 0)
  removePrim := fun _ _ => ((), 0)
  truncPrim := fun _ _ _ => ((), 0)

/-- A concrete object handle with a stale cache (size 0, mtime 0). -/
def staleObj : Object :=
  { name := "a", size := 0, modTime := 0, c := { Pool := "p" }, pool := "p" }

/-- C7: `Object.Put` and `Object.Append` leave the handle's cached `size`
and `modTime` fields unchanged regardless of the primitive's outcome —
both Go methods only delegate to the context-level call and never assign
to the receiver's fields, so the caller must re-Stat to observe the new
remote state. -/
theorem put_append_cache_frame {S : Type} (P : Prims S) (s : S) (o : Object)
    (data : List Nat) :
    (Object.Put P s o data).2.1.size = o.size ∧
    (Object.Put P s o data).2.1.modTime = o.modTime ∧
    (Object.Append P s o data).2.1.size = o.size ∧
    (Object.Append P s o data).2.1.modTime = o.modTime :=
  ⟨rfl, rfl, rfl, rfl⟩

/-- C6 counterexample: with primitives whose `rados_stat` reports size 42
and mtime 7 and whose read succeeds, `Object.Get` on a handle with cached
size 0 and mtime 0 succeeds, yet the handle's cache still holds size 0 and
mtime 0 afterwards — the Stat issued inside `Get` does not update the
handle's cache, contradicting the claim. -/
theorem get_does_not_refresh_cex :
    (okPrims.statPrim () "a").2.2.1 = 42 ∧
    (okPrims.statPrim () "a").2.2.2 = 7 ∧
    (Object.Get okPrims () staleObj).2.2.1 = .ok (List.replicate 42 1) ∧
    (Object.Get okPrims () staleObj).2.1.size = 0 ∧
    (Object.Get okPrims () staleObj).2.1.modTime = 0 ∧
    ¬ (Object.Get okPrims () staleObj).2.1.size = 42 := by
  refine ⟨rfl, rfl, rfl, rfl, rfl, by decide⟩

/-- C6 amended: `Object.Get` never modifies the handle: the Go method
delegates to `Context.Get`, whose internal `Stat` builds a fresh `Object`
value instead of writing into this handle; the handle's cached size and
modification time are returned unchanged, whatever the primitives do. -/
theorem get_leaves_handle_unchanged {S : Type} (P : Prims S) (s : S) (o : Object) :
    (Object.Get P s o).2.1 = o :=
  rfl

/-- C10: if the `rados_stat` issued by `Object.Stat` reports a negative
return code, the method returns the "RADOS stat" error and the handle is
returned exactly as it was — the cache is written only on success. -/
theorem objStat_failure_frame {S : Type} (P : Prims S) (s : S) (o : Object)
    (hfail : (P.statPrim s o.name).2.1 < 0) :
    Object.Stat P s o =
      ((P.statPrim s o.name).1, o,
       some (.radosStat o.name (P.statPrim s o.name).2.1), [.statEv o.name]) := by
  unfold Object.Stat Context.Stat
  simp [hfail]

/-- C10 witness: with the always-failing primitives, `Object.Stat` on the
stale handle keeps size 0 and mtime 0 and reports the stat error. -/
theorem objStat_failure_frame_witness :
    Object.Stat failPrims () staleObj =
      ((), staleObj, some (.radosStat "a" (-5)), [.statEv "a"]) :=
  objStat_failure_frame failPrims () staleObj (by decide)

/-- C9: `Context.Remove` succeeds exactly when `rados_remove` returns
zero, and returns the "RADOS remove" error for any nonzero return code
(the comparison in the source is `cerr != 0`, unlike the `cerr < 0` used
for the size-returning primitives); in the ideal collaborator model a
successful `Remove` leaves the object absent from the remote state. -/
theorem remove_zero_is_success {S : Type} (P : Prims S) (c : Context) (s : S)
    (name : String) :
    ((Context.Remove P c s name).2.1 = none ↔ (P.removePrim s name).2 = 0) ∧
    ((P.removePrim s name).2 ≠ 0 →
      (Context.Remove P c s name).2.1 =
        some (.radosRemove name (P.removePrim s name).2)) ∧
    (∀ r : Remote, (Context.Remove idealPrims c r name).2.1 = none →
      (Context.Remove idealPrims c r name).1 name = none) := by
  refine ⟨?_, ?_, ?_⟩
  · by_cases h : (P.removePrim s name).2 = 0 <;> simp [Context.Remove, h]
  · intro h; simp [Context.Remove, h]
  · intro r h
    rcases hr : r name with _ | ⟨d, t⟩ <;>
      simp [Context.Remove, idealPrims, hr] at h ⊢

/-- `int64(csize)` is the identity below `2^63`. -/
theorem toInt64_of_lt {u : Nat} (h : u < 2 ^ 63) : toInt64 u = (u : Int) := by
  unfold toInt64
  have h64 : u % 2 ^ 64 = u := Nat.mod_eq_of_lt (by omega)
  rw [h64, if_pos h]

/-- C3: `Context.Get` issues a `rados_stat` first; if the stat fails the
stat error is returned and no read is issued (the trace is the single stat
event); if the statted size is zero an empty slice is returned, again with
no read; otherwise exactly one `rados_read` is issued, sized exactly to
the statted length, at offset zero, and `Get` returns the resulting bytes,
or the "RADOS get" error if that read reports a negative code. -/
theorem get_stat_then_single_read {S : Type} (P : Prims S) (c : Context) (s : S)
    (name : String) :
    ((P.statPrim s name).2.1 < 0 →
      Context.Get P c s name =
        ((P.statPrim s name).1,
         .error (.radosStat name (P.statPrim s name).2.1), [.statEv name])) ∧
    (0 ≤ (P.statPrim s name).2.1 → (P.statPrim s name).2.2.1 = 0 →
      Context.Get P c s name = ((P.statPrim s name).1, .ok [], [.statEv name])) ∧
    (0 ≤ (P.statPrim s name).2.1 → 0 < (P.statPrim s name).2.2.1 →
      (P.statPrim s name).2.2.1 < 2 ^ 63 →
      (Context.Get P c s name).2.2 =
        [.statEv name, .readEv name (P.statPrim s name).2.2.1 0] ∧
      (Context.Get P c s name).1 =
        (P.readPrim (P.statPrim s name).1 name (P.statPrim s name).2.2.1 0).1 ∧
      ((P.readPrim (P.statPrim s name).1 name (P.statPrim s name).2.2.1 0).2.1 < 0 →
        (Context.Get P c s name).2.1 =
          .error (.radosGet name
            (P.readPrim (P.statPrim s name).1 name (P.statPrim s name).2.2.1 0).2.1)) ∧
      (0 ≤ (P.readPrim (P.statPrim s name).1 name (P.statPrim s name).2.2.1 0).2.1 →
        (Context.Get P c s name).2.1 =
          .ok (((P.readPrim (P.statPrim s name).1 name
                  (P.statPrim s name).2.2.1 0).2.2.take (P.statPrim s name).2.2.1) ++
               List.replicate ((P.statPrim s name).2.2.1 -
                 ((P.readPrim (P.statPrim s name).1 name
                    (P.statPrim s name).2.2.1 0).2.2.take
                      (P.statPrim s name).2.2.1).length) 0))) := by
  refine ⟨?_, ?_, ?_⟩
  · intro h
    unfold Context.Get Context.Stat
    simp [h]
  · intro h h0
    unfold Context.Get Context.Stat
    simp [not_lt.mpr h, h0, toInt64]
  · intro h h0 hlt
    have hsz : toInt64 (P.statPrim s name).2.2.1 = ((P.statPrim s name).2.2.1 : Int) :=
      toInt64_of_lt hlt
    have hne : toInt64 (P.statPrim s name).2.2.1 ≠ 0 := by
      rw [hsz]; exact_mod_cast Nat.pos_iff_ne_zero.mp h0
    have htn : (toInt64 (P.statPrim s name).2.2.1).toNat = (P.statPrim s name).2.2.1 := by
      rw [hsz]; exact Int.toNat_natCast _
    unfold Context.Get Context.Stat
    simp only [not_lt.mpr h, if_false, hne, htn]
    refine ⟨?_, ?_, ?_, ?_⟩
    · split <;> simp
    · split <;> simp
    · intro hr; simp [hr]
    · intro hr; simp [not_lt.mpr hr]

/-- C3 witness: with the always-failing primitives `Get` returns the stat
error after the lone stat event, and with the all-succeeding primitives
(statted size 42) the trace is exactly one stat followed by one read of
42 bytes at offset 0. -/
theorem get_stat_then_single_read_witness :
    Context.Get failPrims { Pool := "p" } () "a" =
      ((), .error (.radosStat "a" (-5)), [.statEv "a"]) ∧
    (Context.Get okPrims { Pool := "p" } () "a").2.2 =
      [.statEv "a", .readEv "a" 42 0] :=
  ⟨(get_stat_then_single_read failPrims { Pool := "p" } () "a").1 (by decide),
   ((get_stat_then_single_read okPrims { Pool := "p" } () "a").2.2
      (by decide) (by decide) (by decide)).1⟩

/-- C4: over the ideal collaborator model, `Context.Open` on an existing
object returns, after the lone stat, a handle populated from the remote
state (size = stored length, mtime = stored mtime) without modifying the
remote state, and that handle coincides with what a fresh `Stat` of the
post-state reports; on an absent name `Open` falls through to `Create`,
which writes a zero-length full-object overwrite and stats it, so the
remote state gains an empty object and the returned handle has size 0. -/
theorem open_is_open_or_create (c : Context) (r : Remote) (name : String) :
    (∀ (d : List Nat) (t : Int), r name = some (d, t) → d.length < 2 ^ 63 →
      Context.Open idealPrims c r name =
        (r, .ok { name := name, size := (d.length : Int), modTime := t,
                  c := c, pool := c.Pool }, [.statEv name]) ∧
      (Context.Stat idealPrims c (Context.Open idealPrims c r name).1 name).2.1 =
        (Context.Open idealPrims c r name).2.1) ∧
    (r name = none →
      Context.Open idealPrims c r name =
        ((fun n => if n = name then some (([] : List Nat), 0) else r n),
         .ok { name := name, size := 0, modTime := 0, c := c, pool := c.Pool },
         [.statEv name, .writeFullEv name [], .statEv name]) ∧
      (Context.Open idealPrims c r name).1 name = some ([], 0)) := by
  constructor
  · intro d t hr hlt
    have h1 : Context.Open idealPrims c r name =
        (r, .ok { name := name, size := (d.length : Int), modTime := t,
                  c := c, pool := c.Pool }, [.statEv name]) := by
      unfold Context.Open Context.Stat
      simp [idealPrims, hr, toInt64_of_lt hlt]
    refine ⟨h1, ?_⟩
    rw [h1]
    unfold Context.Stat
    simp [idealPrims, hr, toInt64_of_lt hlt]
  · intro hr
    have h1 : Context.Open idealPrims c r name =
        ((fun n => if n = name then some (([] : List Nat), 0) else r n),
         .ok { name := name, size := 0, modTime := 0, c := c, pool := c.Pool },
         [.statEv name, .writeFullEv name [], .statEv name]) := by
      unfold Context.Open Context.Create Context.Put Context.Stat
      simp [idealPrims, hr, toInt64]
    refine ⟨h1, ?_⟩
    rw [h1]
    simp

/-- A remote pool with no objects. -/
def emptyRemote : Remote := fun _ => none

/-- A remote pool holding one two-byte object named "a" with mtime 4. -/
def oneObjRemote : Remote := fun n => if n = "a" then some ([9, 8], 4) else none

/-- C4 witness: opening the existing two-byte object "a" yields a handle
of size 2 without touching the remote state, and opening the absent name
"b" on the empty pool creates an empty object and yields a size-0
handle. -/
theorem open_is_open_or_create_witness :
    (Context.Open idealPrims { Pool := "p" } oneObjRemote "a" =
      (oneObjRemote, .ok { name := "a", size := 2, modTime := 4,
                           c := { Pool := "p" }, pool := "p" }, [.statEv "a"])) ∧
    (Context.Open idealPrims { Pool := "p" } emptyRemote "b" =
      ((fun n => if n = "b" then some (([] : List Nat), 0) else emptyRemote n),
       .ok { name := "b", size := 0, modTime := 0,
             c := { Pool := "p" }, pool := "p" },
       [.statEv "b", .writeFullEv "b" [], .statEv "b"])) ∧
    (Context.Open idealPrims { Pool := "p" } emptyRemote "b").1 "b" = some ([], 0) :=
  ⟨((open_is_open_or_create { Pool := "p" } oneObjRemote "a").1 [9, 8] 4
      (by decide) (by decide)).1,
   ((open_is_open_or_create { Pool := "p" } emptyRemote "b").2 rfl).1,
   ((open_is_open_or_create { Pool := "p" } emptyRemote "b").2 rfl).2⟩

/-- C5: `New` never returns a half-initialized handle: the returned handle
is present exactly when the returned error is nil; and on the path where
`rados_create`, `rados_conf_read_file` and `rados_connect` all succeed but
the post-connect cluster-stat refresh fails, `New` returns a nil handle
with the cluster-stat error and the freshly connected handle is torn down
(`rados_shutdown` is the final primitive event) before the error is
surfaced. -/
theorem new_no_half_initialized_handle {S : Type} (CP : ClusterPrims S) (s : S)
    (configFile : String) :
    ((New CP s configFile).2.1.isSome ↔ (New CP s configFile).2.2.1 = none) ∧
    (0 ≤ (CP.createPrim s).2.1 →
      (0 ≤ (CP.confReadFilePrim (CP.createPrim s).1 (CP.createPrim s).2.2
             (if configFile = "" then none else some configFile)).2 →
      (0 ≤ (CP.connectPrim
             (CP.confReadFilePrim (CP.createPrim s).1 (CP.createPrim s).2.2
               (if configFile = "" then none else some configFile)).1
             (CP.createPrim s).2.2).2 →
      ((CP.clusterStatPrim
          (CP.connectPrim
            (CP.confReadFilePrim (CP.createPrim s).1 (CP.createPrim s).2.2
              (if configFile = "" then none else some configFile)).1
            (CP.createPrim s).2.2).1
          (CP.createPrim s).2.2).2.1 < 0 →
        New CP s configFile =
          (CP.shutdownPrim
            (CP.clusterStatPrim
              (CP.connectPrim
                (CP.confReadFilePrim (CP.createPrim s).1 (CP.createPrim s).2.2
                  (if configFile = "" then none else some configFile)).1
                (CP.createPrim s).2.2).1
              (CP.createPrim s).2.2).1
            (CP.createPrim s).2.2,
           none,
           some (.radosClusterStat
             (CP.clusterStatPrim
               (CP.connectPrim
                 (CP.confReadFilePrim (CP.createPrim s).1 (CP.createPrim s).2.2
                   (if configFile = "" then none else some configFile)).1
                 (CP.createPrim s).2.2).1
               (CP.createPrim s).2.2).2.1),
           [.createEv,
            .confReadFileEv (if configFile = "" then none else some configFile),
            .connectEv, .clusterStatEv, .shutdownEv]))))) := by
  constructor
  · unfold New Rados.Stat Rados.Release
    by_cases h1 : (CP.createPrim s).2.1 < 0
    · simp [h1]
    · simp only [if_neg h1]
      by_cases h2 : (CP.confReadFilePrim (CP.createPrim s).1 (CP.createPrim s).2.2
          (if configFile = "" then none else some configFile)).2 < 0
      · simp [h2]
      · simp only [if_neg h2]
        by_cases h3 : (CP.connectPrim
            (CP.confReadFilePrim (CP.createPrim s).1 (CP.createPrim s).2.2
              (if configFile = "" then none else some configFile)).1
            (CP.createPrim s).2.2).2 < 0
        · simp [h3]
        · simp only [if_neg h3]
          by_cases h4 : (CP.clusterStatPrim
              (CP.connectPrim
                (CP.confReadFilePrim (CP.createPrim s).1 (CP.createPrim s).2.2
                  (if configFile = "" then none else some configFile)).1
                (CP.createPrim s).2.2).1
              (CP.createPrim s).2.2).2.1 < 0
          · simp [h4]
          · simp [h4]
  · intro h1 h2 h3 h4
    unfold New Rados.Stat Rados.Release
    simp [not_lt.mpr h1, not_lt.mpr h2, not_lt.mpr h3, h4]

/-- Concrete cluster primitives over trivial state where every call
succeeds; the connection handle value is 1 and the cluster stats are
(10, 4, 6, 2). -/
def okCPrims : ClusterPrims Unit where
  createPrim := fun _ => ((), 0, some 1)
  confReadFilePrim := fun _ _ _ => ((), 0)
  connectPrim := fun _ _ => ((), 0)
  clusterStatPrim := fun _ _ => ((), 0, { kb := 10, kbUsed := 4, kbAvail := 6, numObjects := 2 })
  shutdownPrim := fun s _ => s
  ioctxCreatePrim := fun _ _ _ => ((), 0)

/-- Concrete cluster primitives over trivial state where creation,
configuration and connect succeed but the cluster stat fails with −5. -/
def statFailCPrims : ClusterPrims Unit where
  createPrim := fun _ => ((), 0, some 1)
  confReadFilePrim := fun _ _ _ => ((), 0)
  connectPrim := fun _ _ => ((), 0)
  clusterStatPrim := fun _ _ => ((), -5, { kb := 0, kbUsed := 0, kbAvail := 0, numObjects := 0 })
  shutdownPrim := fun s _ => s
  ioctxCreatePrim := fun _ _ _ => ((), 0)

/-- C5 witness: with primitives whose cluster stat fails with −5, `New`
returns a nil handle with the cluster-stat error and the event trace ends
in the shutdown of the freshly connected handle. -/
theorem new_no_half_initialized_handle_witness :
    ((New statFailCPrims () "").2.1.isSome ↔ (New statFailCPrims () "").2.2.1 = none) ∧
    New statFailCPrims () "" =
      ((), none, some (.radosClusterStat (-5)),
       [.createEv, .confReadFileEv none, .connectEv, .clusterStatEv, .shutdownEv]) :=
  ⟨(new_no_half_initialized_handle statFailCPrims () "").1,
   (new_no_half_initialized_handle statFailCPrims () "").2
     (by decide) (by decide) (by decide) (by decide)⟩

/-- C8 counterexample: with all-succeeding cluster primitives, `New`
returns the connected handle (connection field `some 1`); `Release` on it
reports success but returns the handle with its connection field still
`some 1` (the Go method never clears `r.rados`), and a subsequent
`NewContext` on the released handle does not fail: it returns a fresh pool
context, contradicting "any subsequent I/O operation on that handle fails
deterministically with an error". -/
theorem release_then_newcontext_cex :
    (New okCPrims () "").2.1 =
      some { rados := some 1, size := 10, used := 4, avail := 6, numObjects := 2 } ∧
    (Rados.Release okCPrims ()
      { rados := some 1, size := 10, used := 4, avail := 6, numObjects := 2 }).2.2.1 =
      none ∧
    (Rados.Release okCPrims ()
      { rados := some 1, size := 10, used := 4, avail := 6, numObjects := 2 }).2.1 =
      { rados := some 1, size := 10, used := 4, avail := 6, numObjects := 2 } ∧
    (Rados.NewContext okCPrims ()
      { rados := some 1, size := 10, used := 4, avail := 6, numObjects := 2 } "p").2.1 =
      .ok { Pool := "p" } := by
  refine ⟨rfl, rfl, rfl, ?_⟩
  unfold Rados.NewContext
  simp [okCPrims]

/-- C8 amended: `Release` always reports success and leaves the handle —
in particular its connection field — unchanged, and `NewContext` returns
the "RADOS not connected" error exactly when the handle's `rados` field is
nil; since `Release` never clears that field, the guard does not make
operations after `Release` fail. -/
theorem release_success_and_nil_guard {S : Type} (CP : ClusterPrims S) (s : S)
    (r : Rados) (pool : String) :
    (Rados.Release CP s r).2.2.1 = none ∧
    (Rados.Release CP s r).2.1 = r ∧
    (r.rados = none →
      Rados.NewContext CP s r pool = (s, .error .radosNotConnected, [])) := by
  refine ⟨rfl, rfl, ?_⟩
  intro h
  unfold Rados.NewContext
  simp [h]

/-- C8 amended witness: on a handle whose connection field is nil,
`NewContext` fails with the "RADOS not connected" error. -/
theorem release_success_and_nil_guard_witness :
    Rados.NewContext okCPrims ()
      { rados := none, size := 0, used := 0, avail := 0, numObjects := 0 } "p" =
      ((), .error .radosNotConnected, []) :=
  (release_success_and_nil_guard okCPrims ()
    { rados := none, size := 0, used := 0, avail := 0, numObjects := 0 } "p").2.2 rfl

/-- Unfolding: the read loop on an empty window returns immediately with
0 bytes and no error. -/
theorem readAtLoop_nil {S : Type} (P : Prims S) (name : String) (s : S) (off : Int) :
    readAtLoop P name s 0 off = (s, 0, none) := by
  rw [readAtLoop]
  simp

/-- Unfolding: a zero-byte transfer terminates the read loop with `io.EOF`
and no bytes from this iteration. -/
theorem readAtLoop_eof {S : Type} (P : Prims S) (name : String) (s : S)
    (len : Nat) (off : Int) (h : len ≠ 0)
    (hz : (P.readPrim s name len off).2.1 = 0) :
    readAtLoop P name s len off = ((P.readPrim s name len off).1, 0, some .eof) := by
  rw [readAtLoop]
  simp [h, hz]

/-- Unfolding: a negative return code terminates the read loop with the
"RADOS read" error and no bytes from this iteration. -/
theorem readAtLoop_neg {S : Type} (P : Prims S) (name : String) (s : S)
    (len : Nat) (off : Int) (h : len ≠ 0)
    (hn : (P.readPrim s name len off).2.1 < 0) :
    readAtLoop P name s len off =
      ((P.readPrim s name len off).1, 0,
       some (.radosRead name (P.readPrim s name len off).2.1)) := by
  rw [readAtLoop]
  have hz : ¬ (P.readPrim s name len off).2.1 = 0 := by omega
  simp [h, hz, hn]

/-- Unfolding: a positive transfer count `cerr` advances the window by
`cerr` bytes and the offset by `cerr`, and the loop's byte count is `cerr`
plus whatever the rest of the loop accumulates. -/
theorem readAtLoop_pos {S : Type} (P : Prims S) (name : String) (s : S)
    (len : Nat) (off : Int) (h : len ≠ 0)
    (hp : 0 < (P.readPrim s name len off).2.1) :
    readAtLoop P name s len off =
      ((readAtLoop P name (P.readPrim s name len off).1
          (len - (P.readPrim s name len off).2.1.toNat)
          (off + (P.readPrim s name len off).2.1)).1,
       (P.readPrim s name len off).2.1.toNat +
         (readAtLoop P name (P.readPrim s name len off).1
            (len - (P.readPrim s name len off).2.1.toNat)
            (off + (P.readPrim s name len off).2.1)).2.1,
       (readAtLoop P name (P.readPrim s name len off).1
          (len - (P.readPrim s name len off).2.1.toNat)
          (off + (P.readPrim s name len off).2.1)).2.2) := by
  rw [readAtLoop]
  have hz : ¬ (P.readPrim s name len off).2.1 = 0 := by omega
  have hn : ¬ (P.readPrim s name len off).2.1 < 0 := by omega
  simp [h, hz, hn]

/-- C1: `Object.ReadAt` repeatedly issues remote reads for the remaining
window at the advancing offset (a positive transfer count advances both
and contributes to the accumulated byte count); a zero-byte remote read
terminates immediately with the byte count accumulated across the prior
partial reads of this call and `io.EOF`; a negative return code terminates
immediately with the accumulated count and the "RADOS read" IOError; and
the accumulated count never exceeds the requested length, with a nil error
returned exactly when it equals the full requested length.  The
well-formedness hypothesis says the collaborator never reports more bytes
than the window it was handed (Go would panic on `data[cerr:]`
otherwise). -/
theorem readAt_contract {S : Type} (P : Prims S) (o : Object)
    (hwf : ∀ (s : S) (len : Nat) (off : Int), 0 < len →
      (P.readPrim s o.name len off).2.1 ≤ (len : Int)) (len : Nat) :
    ∀ (s : S) (off : Int),
      ((Object.ReadAt P s o len off).2.2 = none ↔
        (Object.ReadAt P s o len off).2.1 = len) ∧
      (Object.ReadAt P s o len off).2.1 ≤ len ∧
      (0 < len →
        (((P.readPrim s o.name len off).2.1 = 0 →
           Object.ReadAt P s o len off =
             ((P.readPrim s o.name len off).1, 0, some .eof)) ∧
         ((P.readPrim s o.name len off).2.1 < 0 →
           Object.ReadAt P s o len off =
             ((P.readPrim s o.name len off).1, 0,
              some (.radosRead o.name (P.readPrim s o.name len off).2.1))) ∧
         (0 < (P.readPrim s o.name len off).2.1 →
           Object.ReadAt P s o len off =
             ((Object.ReadAt P (P.readPrim s o.name len off).1 o
                 (len - (P.readPrim s o.name len off).2.1.toNat)
                 (off + (P.readPrim s o.name len off).2.1)).1,
              (P.readPrim s o.name len off).2.1.toNat +
                (Object.ReadAt P (P.readPrim s o.name len off).1 o
                   (len - (P.readPrim s o.name len off).2.1.toNat)
                   (off + (P.readPrim s o.name len off).2.1)).2.1,
              (Object.ReadAt P (P.readPrim s o.name len off).1 o
                 (len - (P.readPrim s o.name len off).2.1.toNat)
                 (off + (P.readPrim s o.name len off).2.1)).2.2)))) := by
  induction len using Nat.strong_induction_on with
  | _ len ih =>
    intro s off
    rcases Nat.eq_zero_or_pos len with h0 | hpos
    · subst h0
      unfold Object.ReadAt
      rw [readAtLoop_nil]
      simp
    · have hne : len ≠ 0 := Nat.pos_iff_ne_zero.mp hpos
      have hstep :
          ((P.readPrim s o.name len off).2.1 = 0 →
            Object.ReadAt P s o len off =
              ((P.readPrim s o.name len off).1, 0, some .eof)) ∧
          ((P.readPrim s o.name len off).2.1 < 0 →
            Object.ReadAt P s o len off =
              ((P.readPrim s o.name len off).1, 0,
               some (.radosRead o.name (P.readPrim s o.name len off).2.1))) ∧
          (0 < (P.readPrim s o.name len off).2.1 →
            Object.ReadAt P s o len off =
              ((Object.ReadAt P (P.readPrim s o.name len off).1 o
                  (len - (P.readPrim s o.name len off).2.1.toNat)
                  (off + (P.readPrim s o.name len off).2.1)).1,
               (P.readPrim s o.name len off).2.1.toNat +
                 (Object.ReadAt P (P.readPrim s o.name len off).1 o
                    (len - (P.readPrim s o.name len off).2.1.toNat)
                    (off + (P.readPrim s o.name len off).2.1)).2.1,
               (Object.ReadAt P (P.readPrim s o.name len off).1 o
                  (len - (P.readPrim s o.name len off).2.1.toNat)
                  (off + (P.readPrim s o.name len off).2.1)).2.2)) := by
        refine ⟨?_, ?_, ?_⟩
        · intro hz; exact readAtLoop_eof P o.name s len off hne hz
        · intro hn; exact readAtLoop_neg P o.name s len off hne hn
        · intro hp; exact readAtLoop_pos P o.name s len off hne hp
      refine ⟨?_, ?_, fun _ => hstep⟩
      · rcases lt_trichotomy (P.readPrim s o.name len off).2.1 0 with hn | hz | hp
        · rw [hstep.2.1 hn]
          simp
          omega
        · rw [hstep.1 hz]
          simp
          omega
        · rw [hstep.2.2 hp]
          dsimp only
          have hk : (P.readPrim s o.name len off).2.1.toNat ≤ len := by
            have := hwf s len off hpos
            omega
          have hk1 : 0 < (P.readPrim s o.name len off).2.1.toNat := by omega
          have hrec := ih (len - (P.readPrim s o.name len off).2.1.toNat) (by omega)
            (P.readPrim s o.name len off).1 (off + (P.readPrim s o.name len off).2.1)
          have h1 := hrec.1
          have h2 := hrec.2.1
          constructor
          · intro he
            have := h1.mp he
            omega
          · intro hn
            apply h1.mpr
            omega
      · rcases lt_trichotomy (P.readPrim s o.name len off).2.1 0 with hn | hz | hp
        · rw [hstep.2.1 hn]; simp
        · rw [hstep.1 hz]; simp
        · rw [hstep.2.2 hp]
          dsimp only
          have hk : (P.readPrim s o.name len off).2.1.toNat ≤ len := by
            have := hwf s len off hpos
            omega
          have hrec := ih (len - (P.readPrim s o.name len off).2.1.toNat) (by omega)
            (P.readPrim s o.name len off).1 (off + (P.readPrim s o.name len off).2.1)
          have h2 := hrec.2.1
          omega

/-- C1 witness: with the one-byte-per-call primitives, a 3-byte `ReadAt`
satisfies the contract (and indeed transfers all 3 bytes with a nil
error). -/
theorem readAt_contract_witness :
    ((Object.ReadAt stepPrims () staleObj 3 0).2.2 = none ↔
      (Object.ReadAt stepPrims () staleObj 3 0).2.1 = 3) ∧
    (Object.ReadAt stepPrims () staleObj 3 0).2.1 ≤ 3 :=
  ⟨(readAt_contract stepPrims staleObj
      (by intro s len off h
          simp only [stepPrims]
          rw [if_neg (by omega)]
          omega) 3 () 0).1,
   (readAt_contract stepPrims staleObj
      (by intro s len off h
          simp only [stepPrims]
          rw [if_neg (by omega)]
          omega) 3 () 0).2.1⟩

/-- C2: `Object.WriteAt` terminates for every buffer and offset — given
fuel exceeding the buffer length and a collaborator that, on a non-empty
window, either fails or transfers between 1 byte and the window length —
and it either stops early on a negative failure sentinel, returning the
bytes written so far together with the "RADOS write" IOError, or runs
until the entire buffer is transferred and returns its full length with a
nil error; the error is never `io.EOF` (there is no end-of-object terminal
case), and a nil error is returned exactly when the whole buffer was
written. -/
theorem writeAt_terminates {S : Type} (P : Prims S) (o : Object)
    (hwf : ∀ (s : S) (d : List Nat) (off : Int), d ≠ [] →
      (P.writePrim s o.name d off).2 ≠ 0 ∧
      (P.writePrim s o.name d off).2 ≤ (d.length : Int)) :
    ∀ (fuel : Nat) (s : S) (data : List Nat) (off : Int), data.length < fuel →
      ∃ s' n e, Object.WriteAt P fuel s o data off = some (s', n, e) ∧
        n ≤ data.length ∧
        (e = none ↔ n = data.length) ∧
        (∀ err, e = some err → ∃ cerr, cerr < 0 ∧ err = .radosWrite o.name cerr) := by
  intro fuel
  induction fuel with
  | zero => intro s data off h; omega
  | succ fuel ih =>
    intro s data off h
    by_cases hd : data.length = 0
    · refine ⟨s, 0, none, ?_, ?_, ?_, ?_⟩
      · unfold Object.WriteAt writeAtLoop
        simp [hd]
      · omega
      · simp [hd]
      · intro err he; cases he
    · by_cases hneg : (P.writePrim s o.name data off).2 < 0
      · refine ⟨(P.writePrim s o.name data off).1, 0,
          some (.radosWrite o.name (P.writePrim s o.name data off).2), ?_, ?_, ?_, ?_⟩
        · unfold Object.WriteAt writeAtLoop
          simp [hd, hneg]
        · omega
        · simp
          omega
        · intro err he
          exact ⟨(P.writePrim s o.name data off).2, hneg, by cases he; rfl⟩
      · have hne : data ≠ [] := by
          intro hcon; rw [hcon] at hd; exact hd rfl
        have hw := hwf s data off hne
        have hpos : 0 < (P.writePrim s o.name data off).2 := by omega
        have hk1 : 0 < (P.writePrim s o.name data off).2.toNat := by omega
        have hkle : (P.writePrim s o.name data off).2.toNat ≤ data.length := by omega
        have hdrop : (data.drop (P.writePrim s o.name data off).2.toNat).length =
            data.length - (P.writePrim s o.name data off).2.toNat := by
          simp
        obtain ⟨s', n, e, heq, hle, hiff, herr⟩ :=
          ih (P.writePrim s o.name data off).1
            (data.drop (P.writePrim s o.name data off).2.toNat)
            (off + (P.writePrim s o.name data off).2)
            (by rw [hdrop]; omega)
        refine ⟨s', (P.writePrim s o.name data off).2.toNat + n, e, ?_, ?_, ?_, ?_⟩
        · unfold Object.WriteAt at heq ⊢
          simp only [writeAtLoop, if_neg hd, if_neg hneg]
          rw [heq]
        · rw [hdrop] at hle
          omega
        · rw [hdrop] at hle hiff
          constructor
          · intro he; have := hiff.mp he; omega
          · intro hn; exact hiff.mpr (by omega)
        · exact herr

/-- C2 witness: with the one-byte-per-call primitives and fuel 4, a 3-byte
`WriteAt` terminates and satisfies the contract. -/
theorem writeAt_terminates_witness :
    ∃ s' n e, Object.WriteAt stepPrims 4 () staleObj [1, 2, 3] 0 = some (s', n, e) ∧
      n ≤ 3 ∧ (e = none ↔ n = 3) ∧
      (∀ err, e = some err → ∃ cerr, cerr < 0 ∧ err = .radosWrite "a" cerr) :=
  writeAt_terminates stepPrims staleObj
    (by intro s d off hne
        have hd : d.length ≠ 0 := by simpa using hne
        simp only [stepPrims]
        rw [if_neg hd]
        constructor
        · omega
        · omega) 4 () [1, 2, 3] 0 (by decide)

/-- C9 witness: removing the existing object "a" in the ideal model
succeeds (the delete primitive returns 0) and leaves "a" absent from the
remote state. -/
theorem remove_zero_is_success_witness :
    ((Context.Remove idealPrims { Pool := "p" } oneObjRemote "a").2.1 = none ↔
      (idealPrims.removePrim oneObjRemote "a").2 = 0) ∧
    (Context.Remove idealPrims { Pool := "p" } oneObjRemote "a").1 "a" = none :=
  ⟨(remove_zero_is_success idealPrims { Pool := "p" } oneObjRemote "a").1,
   (remove_zero_is_success idealPrims { Pool := "p" } oneObjRemote "a").2.2
     oneObjRemote (by decide)⟩
